import Mathlib

/-
Verification of the streamdb Operator layer (operator.go): the permission-checked
storage proxy, its relation computations, and hierarchical path resolution.

Embedding notes:
  - Go pointers to entities are `Option`; a nil pointer is `none`.
  - Storage (`Database`) is an abstract oracle: one function per CRUD operation of
    the narrow storage contract, each returning `Except GoError α` (Go's
    `(value, error)` pair).
  - Every Operator method returns a `Run α`: either a normal return carrying the
    list of storage calls it made (in order), or `panicked`, modelling a Go
    runtime nil-pointer-dereference panic.
  - The `users` package (PermissionLevel, relation functions, entity records) is
    not part of the shown source; those definitions are modelled from the spec
    and are marked as such in their doc comments.
-/

namespace StreamDB

/-- Modelled from the spec: the users package's PermissionLevel is not under src.
The spec fixes the ordered rung sequence NONE < ENABLED < FAMILY < USER < DEVICE
< ROOT < ADMIN. -/
inductive PermissionLevel where
  | NONE
  | ENABLED
  | FAMILY
  | USER
  | DEVICE
  | ROOT
  | ADMIN
deriving DecidableEq

/-- Rank of a permission level in the fixed rung sequence. -/
def PermissionLevel.toNat : PermissionLevel → Nat
  | .NONE => 0
  | .ENABLED => 1
  | .FAMILY => 2
  | .USER => 3
  | .DEVICE => 4
  | .ROOT => 5
  | .ADMIN => 6

/-- Modelled from the spec: `a.Gte(b)` is the single comparison predicate of the
totally ordered PermissionLevel scale. -/
def PermissionLevel.Gte (a b : PermissionLevel) : Bool :=
  b.toNat ≤ a.toNat

/-- Modelled from the spec: users.User - unique numeric id, username, email. -/
structure User where
  UserId : Int
  Name : String
  Email : String
deriving DecidableEq

/-- Modelled from the spec: users.Device - unique numeric id, unique API key, a
name, the owning User's id, and capability data. The spec describes a set of
granted capability flags from which a baseline level (GeneralPermissions) is
derived, and an own "maximum self-level" used toward the device's own user; the
two derived levels are modelled directly as fields. -/
structure Device where
  DeviceId : Int
  Name : String
  ApiKey : String
  UserId : Int
  selfLevel : PermissionLevel
  generalPermissions : PermissionLevel
deriving DecidableEq

/-- Modelled from the spec: users.Stream - unique numeric id, name, type tag,
owning Device's id. -/
structure Stream where
  StreamId : Int
  Name : String
  TypeTag : String
  DeviceId : Int
deriving DecidableEq

/-- Modelled from the spec: users.PhoneCarrier - unique numeric id, name,
email-domain string. -/
structure PhoneCarrier where
  Id : Int
  Name : String
  EmailDomain : String
deriving DecidableEq

/-- Modelled from the spec: GeneralPermissions() - a Device's intrinsic baseline
level; the administrator (nil Device receiver) always gets the maximum level. -/
def GeneralPermissions : Option Device → PermissionLevel
  | none => .ADMIN
  | some d => d.generalPermissions

/-- Modelled from the spec: RelationToUser - administrator gets the maximum
level; if the acting Device's owning User is the target, the Device's own
maximum self-level; otherwise GeneralPermissions. A nil target gives the bottom
level (no relation to a nonexistent target). -/
def RelationToUser : Option Device → Option User → PermissionLevel
  | none, _ => .ADMIN
  | some _, none => .NONE
  | some d, some u =>
    if d.UserId = u.UserId then d.selfLevel else d.generalPermissions

/-- Modelled from the spec: RelationToDevice - administrator gets the maximum
level; the acting Device itself gets the DEVICE tier (self access); a target
owned by the same User gets the FAMILY tier; otherwise GeneralPermissions. A nil
target gives the bottom level. -/
def RelationToDevice : Option Device → Option Device → PermissionLevel
  | none, _ => .ADMIN
  | some _, none => .NONE
  | some d, some t =>
    if d.DeviceId = t.DeviceId then .DEVICE
    else if d.UserId = t.UserId then .FAMILY
    else d.generalPermissions

/-- Modelled from the spec: RelationToStream(stream, owningDevice) delegates to
RelationToDevice(owningDevice) - a caller's relation to a Stream is governed by
its relation to the Stream's owning Device. -/
def RelationToStream (actor : Option Device) (_stream : Option Stream)
    (owner : Option Device) : PermissionLevel :=
  RelationToDevice actor owner

/-- The error values of operator.go: the three package-level sentinels, plus
opaque errors produced by the storage layer (`storage n` stands for an arbitrary
distinct storage-layer error value). -/
inductive GoError where
  | PERMISSION_ERROR
  | INVALID_PATH_ERROR
  | InvalidParameterError
  | storage (code : Nat)
deriving DecidableEq

/-- One invocation of the storage contract, with its arguments; Operator methods
log the storage calls they make. -/
inductive StorageCall where
  | createUser (username email password : String)
  | readUserByName (username : String)
  | readUserById (id : Int)
  | readUserByEmail (email : String)
  | readAllUsers
  | updateUser (user : Option User)
  | deleteUser (id : Int)
  | createPhoneCarrier (name emailDomain : String)
  | readPhoneCarrierById (id : Int)
  | readAllPhoneCarriers
  | updatePhoneCarrier (carrier : Option PhoneCarrier)
  | deletePhoneCarrier (id : Int)
  | createDevice (name : String) (userId : Int)
  | readDevicesForUserId (userId : Int)
  | readDeviceByApiKey (key : String)
  | updateDevice (device : Option Device)
  | deleteDevice (deviceId : Int)
  | createStream (name typeTag : String) (deviceId : Int)
  | readStreamsByDevice (deviceId : Int)
  | updateStream (stream : Option Stream)
  | deleteStream (streamId : Int)
  | readDeviceForUserByName (userId : Int) (name : String)
  | readStreamByDeviceIdAndName (deviceId : Int) (name : String)
deriving DecidableEq

/-- The storage contract consumed by the Operator (the Database CRUD surface
used in operator.go), as an abstract oracle: each operation is a function from
its arguments to a Go-style result. -/
structure Database where
  CreateUser : String → String → String → Except GoError Unit
  ReadUserByName : String → Except GoError User
  ReadUserById : Int → Except GoError User
  ReadUserByEmail : String → Except GoError User
  ReadAllUsers : Except GoError (List User)
  UpdateUser : Option User → Except GoError Unit
  DeleteUser : Int → Except GoError Unit
  CreatePhoneCarrier : String → String → Except GoError Unit
  ReadPhoneCarrierById : Int → Except GoError PhoneCarrier
  ReadAllPhoneCarriers : Except GoError (List PhoneCarrier)
  UpdatePhoneCarrier : Option PhoneCarrier → Except GoError Unit
  DeletePhoneCarrier : Int → Except GoError Unit
  CreateDevice : String → Int → Except GoError Unit
  ReadDevicesForUserId : Int → Except GoError (List Device)
  ReadDeviceByApiKey : String → Except GoError Device
  UpdateDevice : Option Device → Except GoError Unit
  DeleteDevice : Int → Except GoError Unit
  CreateStream : String → String → Int → Except GoError Unit
  ReadStreamsByDevice : Int → Except GoError (List Stream)
  UpdateStream : Option Stream → Except GoError Unit
  DeleteStream : Int → Except GoError Unit
  ReadDeviceForUserByName : Int → String → Except GoError Device
  ReadStreamByDeviceIdAndName : Int → String → Except GoError Stream

/-- Equality of Go-style results is decidable when both component types have
decidable equality. -/
instance {ε α : Type} [DecidableEq ε] [DecidableEq α] : DecidableEq (Except ε α) :=
  fun a b =>
    match a, b with
    | .ok x, .ok y =>
      if h : x = y then .isTrue (by rw [h]) else .isFalse (by simp [h])
    | .error x, .error y =>
      if h : x = y then .isTrue (by rw [h]) else .isFalse (by simp [h])
    | .ok _, .error _ => .isFalse (by simp)
    | .error _, .ok _ => .isFalse (by simp)

/-- Outcome of running an Operator method: a normal return together with the
ordered list of storage calls made, or a Go runtime panic (nil-pointer
dereference). -/
inductive Run (α : Type) where
  | panicked : Run α
  | ret : α → List StorageCall → Run α
deriving DecidableEq

/-- The Operator of operator.go: a database proxy for a particular device; a nil
(`none`) device means administrator. -/
structure Operator where
  db : Database
  dev : Option Device

/-- GetAdminOperator: the administrator Operator (nil users.Device). -/
def Database.GetAdminOperator (db : Database) : Operator :=
  ⟨db, none⟩

/-- GetOperator: resolve an API key to a Device and wrap it in an Operator. -/
def Database.GetOperator (db : Database) (apikey : String) : Except GoError Operator :=
  match db.ReadDeviceByApiKey apikey with
  | .error e => .error e
  | .ok dev => .ok ⟨db, some dev⟩

/-- GetDevice accessor. -/
def Operator.GetDevice (o : Operator) : Option Device :=
  o.dev

/-- GetDatabase accessor. -/
def Operator.GetDatabase (o : Operator) : Database :=
  o.db

/-- Operator.CreateUser. -/
def Operator.CreateUser (o : Operator) (username email password : String) :
    Run (Except GoError Unit) :=
  if ¬ (GeneralPermissions o.dev).Gte .ROOT then
    .ret (.error .PERMISSION_ERROR) []
  else
    .ret (o.GetDatabase.CreateUser username email password)
      [.createUser username email password]

/-- Operator.ReadUser. -/
def Operator.ReadUser (o : Operator) (username : String) :
    Run (Except GoError User) :=
  if ¬ (GeneralPermissions o.dev).Gte .ROOT then
    .ret (.error .PERMISSION_ERROR) []
  else
    .ret (o.GetDatabase.ReadUserByName username) [.readUserByName username]

/-- Operator.ReadUserById. -/
def Operator.ReadUserById (o : Operator) (id : Int) :
    Run (Except GoError User) :=
  if ¬ (GeneralPermissions o.dev).Gte .ROOT then
    .ret (.error .PERMISSION_ERROR) []
  else
    .ret (o.GetDatabase.ReadUserById id) [.readUserById id]

/-- Operator.ReadUserByEmail. -/
def Operator.ReadUserByEmail (o : Operator) (email : String) :
    Run (Except GoError User) :=
  if ¬ (GeneralPermissions o.dev).Gte .ROOT then
    .ret (.error .PERMISSION_ERROR) []
  else
    .ret (o.GetDatabase.ReadUserByEmail email) [.readUserByEmail email]

/-- Operator.ReadAllUsers. -/
def Operator.ReadAllUsers (o : Operator) :
    Run (Except GoError (List User)) :=
  if ¬ (GeneralPermissions o.dev).Gte .ROOT then
    .ret (.error .PERMISSION_ERROR) []
  else
    .ret o.GetDatabase.ReadAllUsers [.readAllUsers]

/-- Operator.UpdateUser: nil check first, then RelationToUser ≥ ROOT. -/
def Operator.UpdateUser (o : Operator) (user : Option User) :
    Run (Except GoError Unit) :=
  match user with
  | none => .ret (.error .InvalidParameterError) []
  | some u =>
    if ¬ (RelationToUser o.dev (some u)).Gte .ROOT then
      .ret (.error .PERMISSION_ERROR) []
    else
      .ret (o.GetDatabase.UpdateUser (some u)) [.updateUser (some u)]

/-- Operator.DeleteUser. -/
def Operator.DeleteUser (o : Operator) (id : Int) :
    Run (Except GoError Unit) :=
  if ¬ (GeneralPermissions o.dev).Gte .ROOT then
    .ret (.error .PERMISSION_ERROR) []
  else
    .ret (o.GetDatabase.DeleteUser id) [.deleteUser id]

/-- Operator.CreatePhoneCarrier. -/
def Operator.CreatePhoneCarrier (o : Operator) (name emailDomain : String) :
    Run (Except GoError Unit) :=
  if ¬ (GeneralPermissions o.dev).Gte .ROOT then
    .ret (.error .PERMISSION_ERROR) []
  else
    .ret (o.GetDatabase.CreatePhoneCarrier name emailDomain)
      [.createPhoneCarrier name emailDomain]

/-- Operator.ReadPhoneCarrierById. -/
def Operator.ReadPhoneCarrierById (o : Operator) (id : Int) :
    Run (Except GoError PhoneCarrier) :=
  if ¬ (GeneralPermissions o.dev).Gte .ENABLED then
    .ret (.error .PERMISSION_ERROR) []
  else
    .ret (o.GetDatabase.ReadPhoneCarrierById id) [.readPhoneCarrierById id]

/-- Operator.ReadAllPhoneCarriers. -/
def Operator.ReadAllPhoneCarriers (o : Operator) :
    Run (Except GoError (List PhoneCarrier)) :=
  if ¬ (GeneralPermissions o.dev).Gte .ENABLED then
    .ret (.error .PERMISSION_ERROR) []
  else
    .ret o.GetDatabase.ReadAllPhoneCarriers [.readAllPhoneCarriers]

/-- Operator.UpdatePhoneCarrier: nil check first, then GeneralPermissions ≥ ROOT. -/
def Operator.UpdatePhoneCarrier (o : Operator) (carrier : Option PhoneCarrier) :
    Run (Except GoError Unit) :=
  match carrier with
  | none => .ret (.error .InvalidParameterError) []
  | some c =>
    if ¬ (GeneralPermissions o.dev).Gte .ROOT then
      .ret (.error .PERMISSION_ERROR) []
    else
      .ret (o.GetDatabase.UpdatePhoneCarrier (some c)) [.updatePhoneCarrier (some c)]

/-- Operator.DeletePhoneCarrier. -/
def Operator.DeletePhoneCarrier (o : Operator) (carrierId : Int) :
    Run (Except GoError Unit) :=
  if ¬ (GeneralPermissions o.dev).Gte .ROOT then
    .ret (.error .PERMISSION_ERROR) []
  else
    .ret (o.GetDatabase.DeletePhoneCarrier carrierId) [.deletePhoneCarrier carrierId]

/-- Operator.CreateDevice: nil check first, then RelationToUser ≥ USER; delegates
with the owner's UserId. -/
def Operator.CreateDevice (o : Operator) (Name : String) (Owner : Option User) :
    Run (Except GoError Unit) :=
  match Owner with
  | none => .ret (.error .InvalidParameterError) []
  | some ow =>
    if ¬ (RelationToUser o.dev (some ow)).Gte .USER then
      .ret (.error .PERMISSION_ERROR) []
    else
      .ret (o.GetDatabase.CreateDevice Name ow.UserId) [.createDevice Name ow.UserId]

/-- Operator.ReadDevicesForUser: no nil check; RelationToUser ≥ FAMILY, then
dereferences u.UserId for the delegate. -/
def Operator.ReadDevicesForUser (o : Operator) (u : Option User) :
    Run (Except GoError (List Device)) :=
  if ¬ (RelationToUser o.dev u).Gte .FAMILY then
    .ret (.error .PERMISSION_ERROR) []
  else
    match u with
    | none => .panicked
    | some uu =>
      .ret (o.GetDatabase.ReadDevicesForUserId uu.UserId) [.readDevicesForUserId uu.UserId]

/-- Operator.ReadDeviceByApiKey. -/
def Operator.ReadDeviceByApiKey (o : Operator) (Key : String) :
    Run (Except GoError Device) :=
  if ¬ (GeneralPermissions o.dev).Gte .ROOT then
    .ret (.error .PERMISSION_ERROR) []
  else
    .ret (o.db.ReadDeviceByApiKey Key) [.readDeviceByApiKey Key]

/-- Operator.UpdateDevice: nil check first, then RelationToDevice ≥ DEVICE. -/
def Operator.UpdateDevice (o : Operator) (update : Option Device) :
    Run (Except GoError Unit) :=
  match update with
  | none => .ret (.error .InvalidParameterError) []
  | some d =>
    if ¬ (RelationToDevice o.dev (some d)).Gte .DEVICE then
      .ret (.error .PERMISSION_ERROR) []
    else
      .ret (o.db.UpdateDevice (some d)) [.updateDevice (some d)]

/-- Operator.DeleteDevice: nil check first, then RelationToDevice ≥ USER;
delegates with the target's DeviceId. -/
def Operator.DeleteDevice (o : Operator) (device : Option Device) :
    Run (Except GoError Unit) :=
  match device with
  | none => .ret (.error .InvalidParameterError) []
  | some d =>
    if ¬ (RelationToDevice o.dev (some d)).Gte .USER then
      .ret (.error .PERMISSION_ERROR) []
    else
      .ret (o.db.DeleteDevice d.DeviceId) [.deleteDevice d.DeviceId]

/-- Operator.CreateStream: nil check first, then RelationToDevice ≥ USER;
delegates with the owner's DeviceId. -/
def Operator.CreateStream (o : Operator) (Name TypeTag : String)
    (owner : Option Device) : Run (Except GoError Unit) :=
  match owner with
  | none => .ret (.error .InvalidParameterError) []
  | some ow =>
    if ¬ (RelationToDevice o.dev (some ow)).Gte .USER then
      .ret (.error .PERMISSION_ERROR) []
    else
      .ret (o.db.CreateStream Name TypeTag ow.DeviceId)
        [.createStream Name TypeTag ow.DeviceId]

/-- Operator.ReadStreamsByDevice: no nil check; RelationToDevice ≥ FAMILY, then
dereferences operand.DeviceId for the delegate. -/
def Operator.ReadStreamsByDevice (o : Operator) (operand : Option Device) :
    Run (Except GoError (List Stream)) :=
  if ¬ (RelationToDevice o.dev operand).Gte .FAMILY then
    .ret (.error .PERMISSION_ERROR) []
  else
    match operand with
    | none => .panicked
    | some d =>
      .ret (o.db.ReadStreamsByDevice d.DeviceId) [.readStreamsByDevice d.DeviceId]

/-- Operator.UpdateStream: no nil check on either argument in the source;
RelationToStream ≥ USER, then the stream pointer is handed to storage as-is. -/
def Operator.UpdateStream (o : Operator) (d : Option Device) (stream : Option Stream) :
    Run (Except GoError Unit) :=
  if ¬ (RelationToStream o.dev stream d).Gte .USER then
    .ret (.error .PERMISSION_ERROR) []
  else
    .ret (o.db.UpdateStream stream) [.updateStream stream]

/-- Operator.DeleteStream: no nil check on either argument in the source;
RelationToStream ≥ USER, then s.StreamId is dereferenced for the delegate. -/
def Operator.DeleteStream (o : Operator) (d : Option Device) (s : Option Stream) :
    Run (Except GoError Unit) :=
  if ¬ (RelationToStream o.dev s d).Gte .USER then
    .ret (.error .PERMISSION_ERROR) []
  else
    match s with
    | none => .panicked
    | some st => .ret (o.db.DeleteStream st.StreamId) [.deleteStream st.StreamId]

/-- Splitting a character list at every occurrence of the separator, keeping
empty segments; the recursive core of `stringsSplit`. -/
def splitChars (sep : Char) : List Char → List (List Char)
  | [] => [[]]
  | c :: rest =>
    if c = sep then
      [] :: splitChars sep rest
    else
      match splitChars sep rest with
      | [] => [[c]]
      | h :: t => (c :: h) :: t

/-- Go's strings.Split for a one-character separator (the "/" used by
ResolvePath): all substrings between consecutive separators, empty ones
included; never returns an empty list. -/
def stringsSplit (s : String) (sep : Char) : List String :=
  (splitChars sep s.data).map (fun l => ⟨l⟩)

/-- The stream-segment step at the end of ResolvePath: if the stream segment is
non-empty, read `device.DeviceId` (a nil-pointer panic when `device` is nil) and
look the stream up by (device id, stream name); otherwise the stream stays nil
with no error. Returns the Go 4-tuple (user, device, stream, err). -/
def Operator.resolveStreamSeg (o : Operator) (u : User) (device : Option Device)
    (sname : String) (log : List StorageCall) :
    Run (Option User × Option Device × Option Stream × Option GoError) :=
  if sname ≠ "" then
    match device with
    | none => .panicked
    | some dv =>
      match o.db.ReadStreamByDeviceIdAndName dv.DeviceId sname with
      | .ok st =>
        .ret (some u, some dv, some st, none)
          (log ++ [.readStreamByDeviceIdAndName dv.DeviceId sname])
      | .error e =>
        .ret (some u, some dv, none, some e)
          (log ++ [.readStreamByDeviceIdAndName dv.DeviceId sname])
  else
    .ret (some u, device, none, none) log

/-- ResolvePath on the three already-split segments.

Mirrors the source line by line:
  - `o.GetDevice().UserId` is evaluated first, so a nil acting device panics;
  - the empty and non-empty user-segment branches are the very same call
    `o.ReadUserById(o.GetDevice().UserId)` (the `if` below has identical arms,
    exactly as in the source);
  - an empty device segment assigns the acting device itself;
  - in the non-empty device branch the source declares NEW local variables
    `device, err := ...`, shadowing the named return values: on lookup error the
    locals are returned (device nil, the lookup error), but on lookup success
    the result is dropped and the OUTER `device` named return is still nil when
    control reaches the stream segment step. -/
def Operator.ResolvePathSegs (o : Operator) (uname dname sname : String) :
    Run (Option User × Option Device × Option Stream × Option GoError) :=
  match o.GetDevice with
  | none => .panicked
  | some selfdev =>
    match (if uname = "" then o.ReadUserById selfdev.UserId
           else o.ReadUserById selfdev.UserId) with
    | .panicked => .panicked
    | .ret (.error e) log1 => .ret (none, none, none, some e) log1
    | .ret (.ok u) log1 =>
      if dname = "" then
        o.resolveStreamSeg u (some selfdev) sname log1
      else
        match o.db.ReadDeviceForUserByName u.UserId dname with
        | .error e =>
          .ret (some u, none, none, some e)
            (log1 ++ [.readDeviceForUserByName u.UserId dname])
        | .ok _found =>
          o.resolveStreamSeg u none sname
            (log1 ++ [.readDeviceForUserByName u.UserId dname])

/-- Operator.ResolvePath: split on "/", demand exactly three segments, then
resolve the segments. -/
def Operator.ResolvePath (o : Operator) (path : String) :
    Run (Option User × Option Device × Option Stream × Option GoError) :=
  match stringsSplit path '/' with
  | [uname, dname, sname] => o.ResolvePathSegs uname dname sname
  | _ => .ret (none, none, none, some .INVALID_PATH_ERROR) []

/-- Example user: id 1. -/
def u1 : User :=
  ⟨1, "u1", "u1@example.com"⟩

/-- Example device owned by u1: id 5, self-level USER, baseline ROOT. -/
def d1 : Device :=
  ⟨5, "dev1", "key1", 1, .USER, .ROOT⟩

/-- Second example device owned by u1: id 6. -/
def d2 : Device :=
  ⟨6, "dev2", "key2", 1, .USER, .ENABLED⟩

/-- Example device owned by a different user (id 2), baseline ENABLED. -/
def dE : Device :=
  ⟨7, "devE", "keyE", 2, .USER, .ENABLED⟩

/-- Example stream named "clicks" owned by d1. -/
def st1 : Stream :=
  ⟨9, "clicks", "int", 5⟩

/-- A concrete storage oracle used for witnesses: user 1 and the devices and
stream above exist; DeleteUser always reports a storage not-found error. -/
def dbEx : Database where
  CreateUser := fun _ _ _ => .ok ()
  ReadUserByName := fun _ => .error (.storage 1)
  ReadUserById := fun id => if id = 1 then .ok u1 else .error (.storage 2)
  ReadUserByEmail := fun _ => .error (.storage 3)
  ReadAllUsers := .ok [u1]
  UpdateUser := fun _ => .ok ()
  DeleteUser := fun _ => .error (.storage 44)
  CreatePhoneCarrier := fun _ _ => .ok ()
  ReadPhoneCarrierById := fun _ => .error (.storage 5)
  ReadAllPhoneCarriers := .ok []
  UpdatePhoneCarrier := fun _ => .ok ()
  DeletePhoneCarrier := fun _ => .ok ()
  CreateDevice := fun _ _ => .ok ()
  ReadDevicesForUserId := fun _ => .ok [d1, d2]
  ReadDeviceByApiKey := fun k => if k = "key1" then .ok d1 else .error (.storage 7)
  UpdateDevice := fun _ => .ok ()
  DeleteDevice := fun _ => .ok ()
  CreateStream := fun _ _ _ => .ok ()
  ReadStreamsByDevice := fun _ => .ok [st1]
  UpdateStream := fun _ => .ok ()
  DeleteStream := fun _ => .ok ()
  ReadDeviceForUserByName := fun uid n =>
    if uid = 1 ∧ n = "dev2" then .ok d2 else .error (.storage 8)
  ReadStreamByDeviceIdAndName := fun did n =>
    if did = 5 ∧ n = "clicks" then .ok st1 else .error (.storage 9)

theorem readUserById_pass (o : Operator) (id : Int)
    (h : (GeneralPermissions o.dev).Gte .ROOT) :
    o.ReadUserById id = .ret (o.db.ReadUserById id) [.readUserById id] := by
  unfold Operator.ReadUserById Operator.GetDatabase
  rw [if_neg (by simp [h])]

/-- Claim C9: any path that does not split into exactly three "/"-separated
segments makes ResolvePath return the invalid-path error with all three
resolved entities nil and no storage access at all. -/
theorem C9_invalid_path_rejected (o : Operator) (path : String)
    (h : (stringsSplit path '/').length ≠ 3) :
    o.ResolvePath path = .ret (none, none, none, some .INVALID_PATH_ERROR) [] := by
  unfold Operator.ResolvePath
  rcases hs : stringsSplit path '/' with _ | ⟨a, _ | ⟨b, _ | ⟨c, _ | ⟨d, t⟩⟩⟩⟩
  · rfl
  · rfl
  · rfl
  · exact absurd (by simp [hs]) h
  · rfl

/-- Witness for C9 at the concrete two-segment path "a/b". -/
theorem C9_witness :
    (stringsSplit "a/b" '/').length ≠ 3 ∧
    Operator.ResolvePath ⟨dbEx, some d1⟩ "a/b" =
      .ret (none, none, none, some .INVALID_PATH_ERROR) [] :=
  ⟨by decide, C9_invalid_path_rejected ⟨dbEx, some d1⟩ "a/b" (by decide)⟩

/-- Claim C7: ResolvePath's user segment is resolved identically whether empty
or not - both branches run the same lookup of the acting Device's own owner, so
the segment-resolution function is unchanged when a non-empty user segment is
replaced by the empty one, and the text of the user segment is never used. -/
theorem C7_user_segment_ignored (o : Operator) (uname dname sname : String) :
    o.ResolvePathSegs uname dname sname = o.ResolvePathSegs "" dname sname := by
  unfold Operator.ResolvePathSegs
  simp only [ite_self]

/-- Claim C1: for a caller Device D1 whose owner lookup yields U1, resolving
the path with empty user and device segments and non-empty stream segment s
returns (U1, D1, the stream found by storage at (D1 id, s)) when the stream
lookup succeeds, and the stream lookup's own storage error otherwise. The only
permission gate crossed is ReadUserById's GeneralPermissions ≥ ROOT - exactly
the gate of a direct user read, nothing stricter. -/
theorem C1_relative_path_resolution (db : Database) (D1 : Device) (U1 : User)
    (path s : String)
    (hsplit : stringsSplit path '/' = ["", "", s]) (hs : s ≠ "")
    (hgte : (GeneralPermissions (some D1)).Gte .ROOT)
    (hread : db.ReadUserById D1.UserId = .ok U1) :
    Operator.ResolvePath ⟨db, some D1⟩ path =
      match db.ReadStreamByDeviceIdAndName D1.DeviceId s with
      | .ok st =>
        .ret (some U1, some D1, some st, none)
          [.readUserById D1.UserId, .readStreamByDeviceIdAndName D1.DeviceId s]
      | .error e =>
        .ret (some U1, some D1, none, some e)
          [.readUserById D1.UserId, .readStreamByDeviceIdAndName D1.DeviceId s] := by
  have hu : Operator.ReadUserById ⟨db, some D1⟩ D1.UserId =
      .ret (.ok U1) [.readUserById D1.UserId] := by
    rw [readUserById_pass ⟨db, some D1⟩ D1.UserId hgte]
    show Run.ret (db.ReadUserById D1.UserId) _ = _
    rw [hread]
  unfold Operator.ResolvePath
  rw [hsplit]
  show (match Operator.ReadUserById ⟨db, some D1⟩ D1.UserId with
        | Run.panicked => Run.panicked
        | Run.ret (Except.error e) log1 => Run.ret (none, none, none, some e) log1
        | Run.ret (Except.ok u) log1 =>
          Operator.resolveStreamSeg ⟨db, some D1⟩ u (some D1) s log1) = _
  rw [hu]
  show Operator.resolveStreamSeg ⟨db, some D1⟩ U1 (some D1) s
    [.readUserById D1.UserId] = _
  unfold Operator.resolveStreamSeg
  rw [if_pos hs]
  cases hst : db.ReadStreamByDeviceIdAndName D1.DeviceId s <;> simp [hst]

/-- Witness for C1: concrete caller d1 (owner u1, baseline ROOT), path
"//clicks", with the stream "clicks" present in storage. -/
theorem C1_witness :
    Operator.ResolvePath ⟨dbEx, some d1⟩ "//clicks" =
      .ret (some u1, some d1, some st1, none)
        [.readUserById 1, .readStreamByDeviceIdAndName 5 "clicks"] := by
  have h := C1_relative_path_resolution dbEx d1 u1 "//clicks" "clicks"
    (by decide) (by decide) (by decide) (by rfl)
  exact h.trans (by rfl)

/-- Claim C2 (code bug evaluation): with caller d1 (baseline ROOT, owner id 1)
and path "/dev2/", the storage lookup ReadDeviceForUserByName(1, "dev2")
succeeds and returns d2, yet ResolvePath returns a nil device: the source's
`device, err := ...` declares new local variables that shadow the named return
values, so the successful lookup's result is dropped. The log shows the lookup
was performed and the error slot shows it did not fail. -/
theorem C2_device_lookup_result_dropped :
    dbEx.ReadDeviceForUserByName 1 "dev2" = .ok d2 ∧
    Operator.ResolvePath ⟨dbEx, some d1⟩ "/dev2/" =
      .ret (some u1, none, none, none)
        [.readUserById 1, .readDeviceForUserByName 1 "dev2"] :=
  ⟨rfl, rfl⟩

/-- Claim C10 (code bug evaluation): ResolvePath is not nil-safe. With caller
d1 and path "/dev2/clicks", the device lookup succeeds but its result is lost
to the shadowed locals, so the device named return is still nil when the
non-empty stream segment dereferences device.DeviceId: a Go nil-pointer panic.
A second nil dereference: the administrator Operator (nil acting device) panics
on o.GetDevice().UserId for any three-segment path. -/
theorem C10_resolvePath_nil_dereference :
    Operator.ResolvePath ⟨dbEx, some d1⟩ "/dev2/clicks" = .panicked ∧
    Operator.ResolvePath (Database.GetAdminOperator dbEx) "//clicks" = .panicked :=
  ⟨rfl, rfl⟩

/-- Counterexample to claim C4 as stated: UpdateStream and DeleteStream perform
no nil validation at all. A nil stream argument to UpdateStream is not rejected
with the invalid-parameter error - the permission check runs and the nil
pointer is handed to storage (the administrator caller makes the check pass);
a nil stream argument to DeleteStream ends in a nil-pointer panic at
s.StreamId, not in the invalid-parameter error. -/
theorem C4_counterexample :
    Operator.UpdateStream (Database.GetAdminOperator dbEx) (some d1) none =
      .ret (.ok ()) [.updateStream none] ∧
    Operator.UpdateStream (Database.GetAdminOperator dbEx) (some d1) none ≠
      .ret (.error .InvalidParameterError) [] ∧
    Operator.DeleteStream (Database.GetAdminOperator dbEx) (some d1) none =
      .panicked ∧
    Operator.DeleteStream (Database.GetAdminOperator dbEx) (some d1) none ≠
      .ret (.error .InvalidParameterError) [] :=
  ⟨rfl, by decide, rfl, by decide⟩

/-- Claim C4 as amended: of the listed methods, UpdateUser, UpdatePhoneCarrier,
CreateDevice, UpdateDevice, DeleteDevice and CreateStream reject a nil required
entity argument with the invalid-parameter error before any permission check or
storage interaction (the result is the same for every caller and every storage
state, and the storage-call log is empty); UpdateStream and DeleteStream
perform no nil validation. -/
theorem C4_nil_argument_rejected_first :
    (∀ (o : Operator), o.UpdateUser none = .ret (.error .InvalidParameterError) []) ∧
    (∀ (o : Operator), o.UpdatePhoneCarrier none = .ret (.error .InvalidParameterError) []) ∧
    (∀ (o : Operator) (n : String), o.CreateDevice n none = .ret (.error .InvalidParameterError) []) ∧
    (∀ (o : Operator), o.UpdateDevice none = .ret (.error .InvalidParameterError) []) ∧
    (∀ (o : Operator), o.DeleteDevice none = .ret (.error .InvalidParameterError) []) ∧
    (∀ (o : Operator) (n t : String), o.CreateStream n t none = .ret (.error .InvalidParameterError) []) :=
  ⟨fun _ => rfl, fun _ => rfl, fun _ _ => rfl, fun _ => rfl, fun _ => rfl,
    fun _ _ _ => rfl⟩

/-- Counterexample to claim C6 as stated: caller device d1 has GeneralPermissions
ROOT, yet UpdateUser on its own owner u1 is denied: the permission check uses
RelationToUser, which for an owner target is the device's self-level (USER for
d1), not its baseline - so the decision does depend on whether the target owns
the caller. -/
theorem C6_counterexample :
    (GeneralPermissions (some d1)).Gte .ROOT = true ∧
    Operator.UpdateUser ⟨dbEx, some d1⟩ (some u1) =
      .ret (.error .PERMISSION_ERROR) [] :=
  ⟨by decide, rfl⟩

/-- Claim C6 as amended: UpdateUser passes its permission check iff
RelationToUser(caller, target) ≥ ROOT - the result is the permission-denied
error with no storage interaction exactly when that relation is below ROOT.
Only when the target user does NOT own the calling device does this reduce to
GeneralPermissions ≥ ROOT; for an owner target the device's self-level decides,
so the decision does depend on ownership. -/
theorem C6_updateUser_gate (db : Database) (dev : Device) (u : User) :
    (Operator.UpdateUser ⟨db, some dev⟩ (some u) = .ret (.error .PERMISSION_ERROR) [] ↔
      ¬ (RelationToUser (some dev) (some u)).Gte .ROOT) ∧
    (dev.UserId ≠ u.UserId →
      ((RelationToUser (some dev) (some u)).Gte .ROOT ↔
        (GeneralPermissions (some dev)).Gte .ROOT)) := by
  constructor
  · simp only [Operator.UpdateUser, Operator.GetDatabase]
    by_cases h : (RelationToUser (some dev) (some u)).Gte PermissionLevel.ROOT = true
    · rw [if_neg (by simp [h])]
      simp [h]
    · rw [if_pos h]
      simp [h]
  · intro hne
    simp only [RelationToUser, GeneralPermissions]
    rw [if_neg hne]

/-- Claim C3: the administrator Operator (GetAdminOperator, nil acting device)
passes every permission check for every target regardless of ownership: each
operation of the operation surface delegates to storage exactly once and
returns the delegate's result, so no administrator call is ever rejected with
the operator's permission-denied error (whose shape, an error return with an
empty storage log, never occurs here). Entity-pointer arguments are taken
non-nil where the source would otherwise fail its nil validation or nil-panic
before reaching storage. -/
theorem C3_admin_passes_all_checks :
    (∀ (db : Database) (a b c : String),
      (db.GetAdminOperator).CreateUser a b c =
        .ret (db.CreateUser a b c) [.createUser a b c]) ∧
    (∀ (db : Database) (n : String),
      (db.GetAdminOperator).ReadUser n =
        .ret (db.ReadUserByName n) [.readUserByName n]) ∧
    (∀ (db : Database) (id : Int),
      (db.GetAdminOperator).ReadUserById id =
        .ret (db.ReadUserById id) [.readUserById id]) ∧
    (∀ (db : Database) (e : String),
      (db.GetAdminOperator).ReadUserByEmail e =
        .ret (db.ReadUserByEmail e) [.readUserByEmail e]) ∧
    (∀ (db : Database),
      (db.GetAdminOperator).ReadAllUsers =
        .ret db.ReadAllUsers [.readAllUsers]) ∧
    (∀ (db : Database) (u : User),
      (db.GetAdminOperator).UpdateUser (some u) =
        .ret (db.UpdateUser (some u)) [.updateUser (some u)]) ∧
    (∀ (db : Database) (id : Int),
      (db.GetAdminOperator).DeleteUser id =
        .ret (db.DeleteUser id) [.deleteUser id]) ∧
    (∀ (db : Database) (n e : String),
      (db.GetAdminOperator).CreatePhoneCarrier n e =
        .ret (db.CreatePhoneCarrier n e) [.createPhoneCarrier n e]) ∧
    (∀ (db : Database) (id : Int),
      (db.GetAdminOperator).ReadPhoneCarrierById id =
        .ret (db.ReadPhoneCarrierById id) [.readPhoneCarrierById id]) ∧
    (∀ (db : Database),
      (db.GetAdminOperator).ReadAllPhoneCarriers =
        .ret db.ReadAllPhoneCarriers [.readAllPhoneCarriers]) ∧
    (∀ (db : Database) (c : PhoneCarrier),
      (db.GetAdminOperator).UpdatePhoneCarrier (some c) =
        .ret (db.UpdatePhoneCarrier (some c)) [.updatePhoneCarrier (some c)]) ∧
    (∀ (db : Database) (id : Int),
      (db.GetAdminOperator).DeletePhoneCarrier id =
        .ret (db.DeletePhoneCarrier id) [.deletePhoneCarrier id]) ∧
    (∀ (db : Database) (n : String) (ow : User),
      (db.GetAdminOperator).CreateDevice n (some ow) =
        .ret (db.CreateDevice n ow.UserId) [.createDevice n ow.UserId]) ∧
    (∀ (db : Database) (u : User),
      (db.GetAdminOperator).ReadDevicesForUser (some u) =
        .ret (db.ReadDevicesForUserId u.UserId) [.readDevicesForUserId u.UserId]) ∧
    (∀ (db : Database) (k : String),
      (db.GetAdminOperator).ReadDeviceByApiKey k =
        .ret (db.ReadDeviceByApiKey k) [.readDeviceByApiKey k]) ∧
    (∀ (db : Database) (d : Device),
      (db.GetAdminOperator).UpdateDevice (some d) =
        .ret (db.UpdateDevice (some d)) [.updateDevice (some d)]) ∧
    (∀ (db : Database) (d : Device),
      (db.GetAdminOperator).DeleteDevice (some d) =
        .ret (db.DeleteDevice d.DeviceId) [.deleteDevice d.DeviceId]) ∧
    (∀ (db : Database) (n t : String) (ow : Device),
      (db.GetAdminOperator).CreateStream n t (some ow) =
        .ret (db.CreateStream n t ow.DeviceId) [.createStream n t ow.DeviceId]) ∧
    (∀ (db : Database) (d : Device),
      (db.GetAdminOperator).ReadStreamsByDevice (some d) =
        .ret (db.ReadStreamsByDevice d.DeviceId) [.readStreamsByDevice d.DeviceId]) ∧
    (∀ (db : Database) (d : Option Device) (s : Option Stream),
      (db.GetAdminOperator).UpdateStream d s =
        .ret (db.UpdateStream s) [.updateStream s]) ∧
    (∀ (db : Database) (d : Option Device) (s : Stream),
      (db.GetAdminOperator).DeleteStream d (some s) =
        .ret (db.DeleteStream s.StreamId) [.deleteStream s.StreamId]) := by
  refine ⟨?_, ?_, ?_, ?_, ?_, ?_, ?_, ?_, ?_, ?_, ?_, ?_, ?_, ?_, ?_, ?_, ?_,
    ?_, ?_, ?_, ?_⟩ <;> intros <;> rfl

/-- Claim C5: in every Operator operation, a computed relation level below the
operation's required minimum yields the permission-denied error with an empty
storage-call log - the storage delegate is not invoked on a rejected call.
(Methods that validate a required entity pointer first are stated with a
non-nil argument, since a nil argument is rejected earlier as an invalid
parameter.) -/
theorem C5_denied_means_no_storage :
    (∀ (o : Operator) (a b c : String),
      ¬ (GeneralPermissions o.dev).Gte .ROOT →
      o.CreateUser a b c = .ret (.error .PERMISSION_ERROR) []) ∧
    (∀ (o : Operator) (n : String),
      ¬ (GeneralPermissions o.dev).Gte .ROOT →
      o.ReadUser n = .ret (.error .PERMISSION_ERROR) []) ∧
    (∀ (o : Operator) (id : Int),
      ¬ (GeneralPermissions o.dev).Gte .ROOT →
      o.ReadUserById id = .ret (.error .PERMISSION_ERROR) []) ∧
    (∀ (o : Operator) (e : String),
      ¬ (GeneralPermissions o.dev).Gte .ROOT →
      o.ReadUserByEmail e = .ret (.error .PERMISSION_ERROR) []) ∧
    (∀ (o : Operator),
      ¬ (GeneralPermissions o.dev).Gte .ROOT →
      o.ReadAllUsers = .ret (.error .PERMISSION_ERROR) []) ∧
    (∀ (o : Operator) (u : User),
      ¬ (RelationToUser o.dev (some u)).Gte .ROOT →
      o.UpdateUser (some u) = .ret (.error .PERMISSION_ERROR) []) ∧
    (∀ (o : Operator) (id : Int),
      ¬ (GeneralPermissions o.dev).Gte .ROOT →
      o.DeleteUser id = .ret (.error .PERMISSION_ERROR) []) ∧
    (∀ (o : Operator) (n e : String),
      ¬ (GeneralPermissions o.dev).Gte .ROOT →
      o.CreatePhoneCarrier n e = .ret (.error .PERMISSION_ERROR) []) ∧
    (∀ (o : Operator) (id : Int),
      ¬ (GeneralPermissions o.dev).Gte .ENABLED →
      o.ReadPhoneCarrierById id = .ret (.error .PERMISSION_ERROR) []) ∧
    (∀ (o : Operator),
      ¬ (GeneralPermissions o.dev).Gte .ENABLED →
      o.ReadAllPhoneCarriers = .ret (.error .PERMISSION_ERROR) []) ∧
    (∀ (o : Operator) (c : PhoneCarrier),
      ¬ (GeneralPermissions o.dev).Gte .ROOT →
      o.UpdatePhoneCarrier (some c) = .ret (.error .PERMISSION_ERROR) []) ∧
    (∀ (o : Operator) (id : Int),
      ¬ (GeneralPermissions o.dev).Gte .ROOT →
      o.DeletePhoneCarrier id = .ret (.error .PERMISSION_ERROR) []) ∧
    (∀ (o : Operator) (n : String) (ow : User),
      ¬ (RelationToUser o.dev (some ow)).Gte .USER →
      o.CreateDevice n (some ow) = .ret (.error .PERMISSION_ERROR) []) ∧
    (∀ (o : Operator) (u : Option User),
      ¬ (RelationToUser o.dev u).Gte .FAMILY →
      o.ReadDevicesForUser u = .ret (.error .PERMISSION_ERROR) []) ∧
    (∀ (o : Operator) (k : String),
      ¬ (GeneralPermissions o.dev).Gte .ROOT →
      o.ReadDeviceByApiKey k = .ret (.error .PERMISSION_ERROR) []) ∧
    (∀ (o : Operator) (d : Device),
      ¬ (RelationToDevice o.dev (some d)).Gte .DEVICE →
      o.UpdateDevice (some d) = .ret (.error .PERMISSION_ERROR) []) ∧
    (∀ (o : Operator) (d : Device),
      ¬ (RelationToDevice o.dev (some d)).Gte .USER →
      o.DeleteDevice (some d) = .ret (.error .PERMISSION_ERROR) []) ∧
    (∀ (o : Operator) (n t : String) (ow : Device),
      ¬ (RelationToDevice o.dev (some ow)).Gte .USER →
      o.CreateStream n t (some ow) = .ret (.error .PERMISSION_ERROR) []) ∧
    (∀ (o : Operator) (d : Option Device),
      ¬ (RelationToDevice o.dev d).Gte .FAMILY →
      o.ReadStreamsByDevice d = .ret (.error .PERMISSION_ERROR) []) ∧
    (∀ (o : Operator) (d : Option Device) (s : Option Stream),
      ¬ (RelationToStream o.dev s d).Gte .USER →
      o.UpdateStream d s = .ret (.error .PERMISSION_ERROR) []) ∧
    (∀ (o : Operator) (d : Option Device) (s : Option Stream),
      ¬ (RelationToStream o.dev s d).Gte .USER →
      o.DeleteStream d s = .ret (.error .PERMISSION_ERROR) []) := by
  refine ⟨?_, ?_, ?_, ?_, ?_, ?_, ?_, ?_, ?_, ?_, ?_, ?_, ?_, ?_, ?_, ?_, ?_,
    ?_, ?_, ?_, ?_⟩ <;> intros <;>
  simp_all [Operator.CreateUser, Operator.ReadUser, Operator.ReadUserById,
    Operator.ReadUserByEmail, Operator.ReadAllUsers, Operator.UpdateUser,
    Operator.DeleteUser, Operator.CreatePhoneCarrier,
    Operator.ReadPhoneCarrierById, Operator.ReadAllPhoneCarriers,
    Operator.UpdatePhoneCarrier, Operator.DeletePhoneCarrier,
    Operator.CreateDevice, Operator.ReadDevicesForUser,
    Operator.ReadDeviceByApiKey, Operator.UpdateDevice, Operator.DeleteDevice,
    Operator.CreateStream, Operator.ReadStreamsByDevice, Operator.UpdateStream,
    Operator.DeleteStream]

/-- Witness for C5: the spec's own scenario - caller device dE (baseline
ENABLED, owner user 2) calls UpdateDevice on d1 (owner user 1): the relation
falls back to ENABLED, below the DEVICE minimum, and the call is rejected with
no storage interaction. -/
theorem C5_witness :
    ¬ (RelationToDevice (some dE) (some d1)).Gte .DEVICE = true ∧
    Operator.UpdateDevice ⟨dbEx, some dE⟩ (some d1) =
      .ret (.error .PERMISSION_ERROR) [] :=
  ⟨by decide,
    C5_denied_means_no_storage.2.2.2.2.2.2.2.2.2.2.2.2.2.2.2.1
      ⟨dbEx, some dE⟩ d1 (by decide)⟩

/-- Claim C8: whenever an operation's permission check passes (and its
arguments pass validation), the Operator invokes the storage delegate exactly
once - the log is precisely that one call - and returns the delegate's result
verbatim, whatever it is (storage errors included, uninterpreted). -/
theorem C8_delegate_called_once_verbatim :
    (∀ (o : Operator) (a b c : String),
      (GeneralPermissions o.dev).Gte .ROOT →
      o.CreateUser a b c = .ret (o.db.CreateUser a b c) [.createUser a b c]) ∧
    (∀ (o : Operator) (n : String),
      (GeneralPermissions o.dev).Gte .ROOT →
      o.ReadUser n = .ret (o.db.ReadUserByName n) [.readUserByName n]) ∧
    (∀ (o : Operator) (id : Int),
      (GeneralPermissions o.dev).Gte .ROOT →
      o.ReadUserById id = .ret (o.db.ReadUserById id) [.readUserById id]) ∧
    (∀ (o : Operator) (e : String),
      (GeneralPermissions o.dev).Gte .ROOT →
      o.ReadUserByEmail e = .ret (o.db.ReadUserByEmail e) [.readUserByEmail e]) ∧
    (∀ (o : Operator),
      (GeneralPermissions o.dev).Gte .ROOT →
      o.ReadAllUsers = .ret o.db.ReadAllUsers [.readAllUsers]) ∧
    (∀ (o : Operator) (u : User),
      (RelationToUser o.dev (some u)).Gte .ROOT →
      o.UpdateUser (some u) = .ret (o.db.UpdateUser (some u)) [.updateUser (some u)]) ∧
    (∀ (o : Operator) (id : Int),
      (GeneralPermissions o.dev).Gte .ROOT →
      o.DeleteUser id = .ret (o.db.DeleteUser id) [.deleteUser id]) ∧
    (∀ (o : Operator) (n e : String),
      (GeneralPermissions o.dev).Gte .ROOT →
      o.CreatePhoneCarrier n e = .ret (o.db.CreatePhoneCarrier n e) [.createPhoneCarrier n e]) ∧
    (∀ (o : Operator) (id : Int),
      (GeneralPermissions o.dev).Gte .ENABLED →
      o.ReadPhoneCarrierById id = .ret (o.db.ReadPhoneCarrierById id) [.readPhoneCarrierById id]) ∧
    (∀ (o : Operator),
      (GeneralPermissions o.dev).Gte .ENABLED →
      o.ReadAllPhoneCarriers = .ret o.db.ReadAllPhoneCarriers [.readAllPhoneCarriers]) ∧
    (∀ (o : Operator) (c : PhoneCarrier),
      (GeneralPermissions o.dev).Gte .ROOT →
      o.UpdatePhoneCarrier (some c) = .ret (o.db.UpdatePhoneCarrier (some c)) [.updatePhoneCarrier (some c)]) ∧
    (∀ (o : Operator) (id : Int),
      (GeneralPermissions o.dev).Gte .ROOT →
      o.DeletePhoneCarrier id = .ret (o.db.DeletePhoneCarrier id) [.deletePhoneCarrier id]) ∧
    (∀ (o : Operator) (n : String) (ow : User),
      (RelationToUser o.dev (some ow)).Gte .USER →
      o.CreateDevice n (some ow) = .ret (o.db.CreateDevice n ow.UserId) [.createDevice n ow.UserId]) ∧
    (∀ (o : Operator) (u : User),
      (RelationToUser o.dev (some u)).Gte .FAMILY →
      o.ReadDevicesForUser (some u) = .ret (o.db.ReadDevicesForUserId u.UserId) [.readDevicesForUserId u.UserId]) ∧
    (∀ (o : Operator) (k : String),
      (GeneralPermissions o.dev).Gte .ROOT →
      o.ReadDeviceByApiKey k = .ret (o.db.ReadDeviceByApiKey k) [.readDeviceByApiKey k]) ∧
    (∀ (o : Operator) (d : Device),
      (RelationToDevice o.dev (some d)).Gte .DEVICE →
      o.UpdateDevice (some d) = .ret (o.db.UpdateDevice (some d)) [.updateDevice (some d)]) ∧
    (∀ (o : Operator) (d : Device),
      (RelationToDevice o.dev (some d)).Gte .USER →
      o.DeleteDevice (some d) = .ret (o.db.DeleteDevice d.DeviceId) [.deleteDevice d.DeviceId]) ∧
    (∀ (o : Operator) (n t : String) (ow : Device),
      (RelationToDevice o.dev (some ow)).Gte .USER →
      o.CreateStream n t (some ow) = .ret (o.db.CreateStream n t ow.DeviceId) [.createStream n t ow.DeviceId]) ∧
    (∀ (o : Operator) (d : Device),
      (RelationToDevice o.dev (some d)).Gte .FAMILY →
      o.ReadStreamsByDevice (some d) = .ret (o.db.ReadStreamsByDevice d.DeviceId) [.readStreamsByDevice d.DeviceId]) ∧
    (∀ (o : Operator) (d : Option Device) (s : Option Stream),
      (RelationToStream o.dev s d).Gte .USER →
      o.UpdateStream d s = .ret (o.db.UpdateStream s) [.updateStream s]) ∧
    (∀ (o : Operator) (d : Option Device) (s : Stream),
      (RelationToStream o.dev (some s) d).Gte .USER →
      o.DeleteStream d (some s) = .ret (o.db.DeleteStream s.StreamId) [.deleteStream s.StreamId]) := by
  refine ⟨?_, ?_, ?_, ?_, ?_, ?_, ?_, ?_, ?_, ?_, ?_, ?_, ?_, ?_, ?_, ?_, ?_,
    ?_, ?_, ?_, ?_⟩ <;> intros <;>
  simp_all [Operator.CreateUser, Operator.ReadUser, Operator.ReadUserById,
    Operator.ReadUserByEmail, Operator.ReadAllUsers, Operator.UpdateUser,
    Operator.DeleteUser, Operator.CreatePhoneCarrier,
    Operator.ReadPhoneCarrierById, Operator.ReadAllPhoneCarriers,
    Operator.UpdatePhoneCarrier, Operator.DeletePhoneCarrier,
    Operator.CreateDevice, Operator.ReadDevicesForUser,
    Operator.ReadDeviceByApiKey, Operator.UpdateDevice, Operator.DeleteDevice,
    Operator.CreateStream, Operator.ReadStreamsByDevice, Operator.UpdateStream,
    Operator.DeleteStream, Operator.GetDatabase]

/-- Witness for C8: the spec's own scenario - the administrator deletes user
id 7, no such user exists in the concrete storage dbEx, and the storage
layer's not-found error comes back unchanged, with exactly one delegate call
logged. -/
theorem C8_witness :
    (GeneralPermissions (dbEx.GetAdminOperator).dev).Gte .ROOT = true ∧
    (dbEx.GetAdminOperator).DeleteUser 7 =
      .ret (.error (.storage 44)) [.deleteUser 7] :=
  ⟨by decide,
    C8_delegate_called_once_verbatim.2.2.2.2.2.2.1
      dbEx.GetAdminOperator 7 (by decide)⟩

/-- Witness for C6 (amended): concrete caller dE and target u1, who does not
own dE, discharging the non-ownership hypothesis. -/
theorem C6_witness :
    (Operator.UpdateUser ⟨dbEx, some dE⟩ (some u1) =
        .ret (.error .PERMISSION_ERROR) [] ↔
      ¬ (RelationToUser (some dE) (some u1)).Gte .ROOT) ∧
    ((RelationToUser (some dE) (some u1)).Gte .ROOT ↔
      (GeneralPermissions (some dE)).Gte .ROOT) :=
  ⟨(C6_updateUser_gate dbEx dE u1).1,
    (C6_updateUser_gate dbEx dE u1).2 (by decide)⟩

end StreamDB
